import Mathlib

/-!
Verification of the ClipMaster processing pipeline: a shallow embedding of
the data model (prisma/schema.prisma, app/lib/types.ts), the processing-queue
component operations (components/file-manager.tsx), the custom-prompt
operations (components/custom-prompts.tsx), the settings defaults and the
upload helpers, together with the orchestrator and scorer operations that the
design document specifies for the backend.
-/

namespace ClipMaster

/-- Task status enum, prisma/schema.prisma enum TaskStatus and the status
union of ProcessingTask in app/lib/types.ts. -/
inductive TaskStatus
  | PENDING
  | RUNNING
  | COMPLETED
  | FAILED
  | CANCELLED
  deriving DecidableEq, Repr

/-- String literal of each persisted task status, as it appears in the
schema and in app/lib/types.ts. -/
def TaskStatus.str : TaskStatus → String
  | .PENDING => "PENDING"
  | .RUNNING => "RUNNING"
  | .COMPLETED => "COMPLETED"
  | .FAILED => "FAILED"
  | .CANCELLED => "CANCELLED"

/-- Task type enum, prisma/schema.prisma enum TaskType and app/lib/types.ts. -/
inductive TaskType
  | TRANSCRIPTION
  | HIGHLIGHT_DETECTION
  | CLIP_GENERATION
  | SUBTITLE_GENERATION
  | TWITCH_CAPTURE
  deriving DecidableEq, Repr

/-- ProcessingTask record, app/lib/types.ts lines 42-54.  Times are kept as
opaque strings; progress is an exact rational standing for the number field. -/
structure ProcessingTask where
  id : String
  type : TaskType
  status : TaskStatus
  progress : ℚ
  customPrompt : Option String
  error : Option String
  startedAt : Option String
  completedAt : Option String
  createdAt : String
  deriving DecidableEq, Repr

/-- Modelled from the spec: the Job Orchestrator operation
`ReportProgress(taskID, percent)` is backend code absent from src/; the spec
says a report with a lower percent than previously recorded is ignored, not
an error, and otherwise the reported percent is recorded. -/
def reportProgress (t : ProcessingTask) (percent : ℚ) : ProcessingTask :=
  if percent < t.progress then t else { t with progress := percent }

/-- Modelled from the spec: the Job Orchestrator operation
`ClaimNext` is backend code absent from src/; the spec says it atomically
transitions a matching pending task to running and returns it, skipping
tasks that are not pending.  The state is the orchestrator's task list and
the atomic claim is one total step on it. -/
def claimNext : List ProcessingTask → Option (String × List ProcessingTask)
  | [] => none
  | t :: ts =>
    if t.status = TaskStatus.PENDING then
      some (t.id, { t with status := TaskStatus.RUNNING } :: ts)
    else
      (claimNext ts).map fun p => (p.1, t :: p.2)

/-- Status union of the ProcessingJob interface in the ProcessingQueue
component of components/file-manager.tsx: it has PAUSED and no CANCELLED. -/
inductive JobStatus
  | PENDING
  | RUNNING
  | COMPLETED
  | FAILED
  | PAUSED
  deriving DecidableEq, Repr

/-- String literal of each UI job status. -/
def JobStatus.str : JobStatus → String
  | .PENDING => "PENDING"
  | .RUNNING => "RUNNING"
  | .COMPLETED => "COMPLETED"
  | .FAILED => "FAILED"
  | .PAUSED => "PAUSED"

/-- Type union of the ProcessingJob interface in components/file-manager.tsx. -/
inductive JobType
  | TRANSCRIPTION
  | HIGHLIGHT_DETECTION
  | CLIP_GENERATION
  | SUBTITLE_GENERATION
  deriving DecidableEq, Repr

/-- ProcessingJob interface of the ProcessingQueue component in
components/file-manager.tsx.  Number fields are exact rationals. -/
structure ProcessingJob where
  id : String
  filename : String
  type : JobType
  status : JobStatus
  progress : ℚ
  estimatedTime : Option String
  startedAt : Option String
  completedAt : Option String
  error : Option String
  gpuUsage : Option ℚ
  memoryUsage : Option ℚ
  deriving DecidableEq, Repr

/-- First job of the initial ProcessingQueue state in file-manager.tsx. -/
def job1 : ProcessingJob :=
  { id := "1", filename := "gaming_session_01.mp4", type := JobType.TRANSCRIPTION
    status := JobStatus.RUNNING, progress := 75, estimatedTime := some "2 min"
    startedAt := some "2 minutes ago", completedAt := none, error := none
    gpuUsage := some 85, memoryUsage := some (mkRat 124 10) }

/-- Second job of the initial ProcessingQueue state. -/
def job2 : ProcessingJob :=
  { id := "2", filename := "stream_highlight_reel.mp4", type := JobType.HIGHLIGHT_DETECTION
    status := JobStatus.RUNNING, progress := 45, estimatedTime := some "5 min"
    startedAt := some "1 minute ago", completedAt := none, error := none
    gpuUsage := some 92, memoryUsage := some (mkRat 87 10) }

/-- Third job of the initial ProcessingQueue state. -/
def job3 : ProcessingJob :=
  { id := "3", filename := "reaction_compilation.mp4", type := JobType.CLIP_GENERATION
    status := JobStatus.PENDING, progress := 0, estimatedTime := some "3 min"
    startedAt := none, completedAt := none, error := none
    gpuUsage := none, memoryUsage := none }

/-- Fourth job of the initial ProcessingQueue state. -/
def job4 : ProcessingJob :=
  { id := "4", filename := "tutorial_video.mp4", type := JobType.SUBTITLE_GENERATION
    status := JobStatus.COMPLETED, progress := 100, estimatedTime := none
    startedAt := none, completedAt := some "5 minutes ago", error := none
    gpuUsage := none, memoryUsage := none }

/-- Fifth job of the initial ProcessingQueue state. -/
def job5 : ProcessingJob :=
  { id := "5", filename := "failed_upload.mp4", type := JobType.TRANSCRIPTION
    status := JobStatus.FAILED, progress := 30, estimatedTime := none
    startedAt := none, completedAt := none
    error := some "Insufficient GPU memory. Please try with a smaller file."
    gpuUsage := none, memoryUsage := none }

/-- Initial jobs of the ProcessingQueue component in file-manager.tsx. -/
def initialJobs : List ProcessingJob := [job1, job2, job3, job4, job5]

/-- pauseJob from file-manager.tsx: map each job, setting the matching id's
status to PAUSED. -/
def pauseJob (jobs : List ProcessingJob) (jobId : String) : List ProcessingJob :=
  jobs.map fun job =>
    if job.id = jobId then { job with status := JobStatus.PAUSED } else job

/-- resumeJob from file-manager.tsx: map each job, setting the matching id's
status to RUNNING. -/
def resumeJob (jobs : List ProcessingJob) (jobId : String) : List ProcessingJob :=
  jobs.map fun job =>
    if job.id = jobId then { job with status := JobStatus.RUNNING } else job

/-- retryJob from file-manager.tsx: map each job, setting the matching id's
status to PENDING, progress to 0 and clearing the error. -/
def retryJob (jobs : List ProcessingJob) (jobId : String) : List ProcessingJob :=
  jobs.map fun job =>
    if job.id = jobId then
      { job with status := JobStatus.PENDING, progress := 0, error := none }
    else job

/-- cancelJob from file-manager.tsx: remove the matching job from the list. -/
def cancelJob (jobs : List ProcessingJob) (jobId : String) : List ProcessingJob :=
  jobs.filter fun job => job.id ≠ jobId

/-- Guard of the Cancel button in the ProcessingQueue render
(file-manager.tsx): the button is shown only for PENDING, PAUSED or FAILED
jobs. -/
def canCancel (s : JobStatus) : Bool :=
  s = JobStatus.PENDING ∨ s = JobStatus.PAUSED ∨ s = JobStatus.FAILED

/-- Guard of the Retry button in the ProcessingQueue render: shown only for
FAILED jobs. -/
def canRetry (s : JobStatus) : Bool :=
  s = JobStatus.FAILED

/-- One job's update in the periodic progress-simulation effect of
file-manager.tsx: a RUNNING job with progress below 100 advances by the drawn
increment, capped at 100; every other job is unchanged. -/
def progressStep (inc : ℚ) (job : ProcessingJob) : ProcessingJob :=
  if job.status = JobStatus.RUNNING ∧ job.progress < 100 then
    { job with progress :=
        if job.progress + inc ≤ 100 then job.progress + inc else 100 }
  else job

/-- The periodic progress-update step of the ProcessingQueue useEffect,
with the random draw per job supplied as a function of the job id. -/
def progressTick (rand : String → ℚ) (jobs : List ProcessingJob) : List ProcessingJob :=
  jobs.map fun job => progressStep (rand job.id) job

/-- Highlight type enum, prisma/schema.prisma and app/lib/types.ts. -/
inductive HighlightType
  | GAMEPLAY_MOMENT
  | EMOTIONAL_REACTION
  | CHAT_SPIKE
  | GAMEPLAY_MECHANIC
  | STRATEGIC_EXPLANATION
  | CONTENT_PEAK
  | CLIP_THAT_MOMENT
  | CUSTOM_PROMPT
  deriving DecidableEq, Repr

/-- Clip format enum, prisma/schema.prisma. -/
inductive ClipFormat
  | HORIZONTAL
  | VERTICAL
  | SQUARE
  deriving DecidableEq, Repr

/-- Highlight row, prisma/schema.prisma model Highlight. -/
structure Highlight where
  id : String
  videoId : String
  startTime : ℚ
  endTime : ℚ
  confidence : ℚ
  type : HighlightType
  description : Option String
  deriving DecidableEq, Repr

/-- Clip row, prisma/schema.prisma model Clip.  The highlight relation is
declared `onDelete: SetNull`, so `highlightId` is optional. -/
structure Clip where
  id : String
  videoId : String
  highlightId : Option String
  filename : String
  filePath : String
  fileSize : ℤ
  duration : ℚ
  startTime : ℚ
  endTime : ℚ
  format : ClipFormat
  hasSubtitles : Bool
  hasOverlay : Bool
  deriving DecidableEq, Repr

/-- Effect of the schema's `onDelete: SetNull` referential action on one clip
row when the highlight with the given id is deleted: a clip pointing at it
has the reference cleared, any other clip is untouched. -/
def clearHighlightRef (hid : String) (c : Clip) : Clip :=
  if c.highlightId = some hid then { c with highlightId := none } else c

/-- Deleting a highlight row under prisma/schema.prisma semantics: the
highlight row is removed and, by `onDelete: SetNull` on the Clip relation,
every clip referencing it keeps its row with the reference set to null. -/
def deleteHighlight (hid : String) (hs : List Highlight) (cs : List Clip) :
    List Highlight × List Clip :=
  (hs.filter fun h => h.id ≠ hid, cs.map (clearHighlightRef hid))

/-- A candidate window proposed by one signal source for the Highlight
Scorer, as described in the design document: raw bounds, the peak the window
is centred on, a raw score in `[0,1]` and a category tag. -/
structure Proposal where
  startTime : ℚ
  endTime : ℚ
  peak : ℚ
  confidence : ℚ
  category : HighlightType
  deriving DecidableEq, Repr

/-- Modelled from the spec: the Highlight Scorer is backend code absent from
src/.  Step 2 of its algorithm clamps each proposal to
`[minHighlightDuration, maxHighlightDuration]` by expanding or trimming
symmetrically around its peak; the data-model invariant
`0 ≤ start < end ≤ video.duration` is restored by shifting a window that
overhangs an edge of the video back inside it. -/
def clampProposal (minD maxD dur : ℚ) (p : Proposal) : Proposal :=
  let len := p.endTime - p.startTime
  let q :=
    if len < minD then
      { p with startTime := p.peak - minD / 2, endTime := p.peak + minD / 2 }
    else if maxD < len then
      { p with startTime := p.peak - maxD / 2, endTime := p.peak + maxD / 2 }
    else p
  let len2 := q.endTime - q.startTime
  if q.startTime < 0 then { q with startTime := 0, endTime := len2 }
  else if dur < q.endTime then { q with startTime := dur - len2, endTime := dur }
  else q

/-- Overlap of two windows over the time axis (intersection over union), the
merge criterion of step 3 of the Scorer algorithm. -/
def overlapScore (a b : Proposal) : ℚ :=
  let lo := if a.startTime ≤ b.startTime then b.startTime else a.startTime
  let hi := if a.endTime ≤ b.endTime then a.endTime else b.endTime
  let lo2 := if a.startTime ≤ b.startTime then a.startTime else b.startTime
  let hi2 := if a.endTime ≤ b.endTime then b.endTime else a.endTime
  if hi - lo ≤ 0 then 0 else (hi - lo) / (hi2 - lo2)

/-- Merge of two overlapping proposals per step 3 of the Scorer algorithm:
union of bounds, maximum confidence, category (and peak) of the
highest-confidence constituent. -/
def mergeTwo (a b : Proposal) : Proposal :=
  { startTime := if a.startTime ≤ b.startTime then a.startTime else b.startTime
    endTime := if a.endTime ≤ b.endTime then b.endTime else a.endTime
    peak := if b.confidence ≤ a.confidence then a.peak else b.peak
    confidence := if b.confidence ≤ a.confidence then a.confidence else b.confidence
    category := if b.confidence ≤ a.confidence then a.category else b.category }

/-- Insert one proposal into an accumulated list, merging it into the first
accumulated proposal it overlaps by at least the merge threshold. -/
def insertMerge (thr : ℚ) (p : Proposal) : List Proposal → List Proposal
  | [] => [p]
  | q :: qs =>
    if thr ≤ overlapScore p q then mergeTwo q p :: qs
    else q :: insertMerge thr p qs

/-- Modelled from the spec: one merge pass over the clamped proposals,
folding each into the accumulator via `insertMerge`. -/
def mergePass (thr : ℚ) (ps : List Proposal) : List Proposal :=
  ps.foldl (fun acc p => insertMerge thr p acc) []

/-- Ordering of step 5 of the Scorer algorithm: descending confidence, ties
broken by earlier start time. -/
def proposalBefore (a b : Proposal) : Prop :=
  b.confidence < a.confidence ∨ (a.confidence = b.confidence ∧ a.startTime ≤ b.startTime)

instance : DecidableRel proposalBefore := fun a b => by
  unfold proposalBefore; infer_instance

/-- Modelled from the spec: the Highlight Scorer pipeline on one video —
clamp every proposal (step 2), merge overlapping proposals (step 3), discard
proposals below the confidence threshold (step 4), sort descending by
confidence with ties broken by earlier start (step 5). -/
def scoreHighlights (minD maxD dur thr mergeThr : ℚ) (ps : List Proposal) :
    List Proposal :=
  let clamped := ps.map (clampProposal minD maxD dur)
  let merged := mergePass mergeThr clamped
  let kept := merged.filter fun p => thr ≤ p.confidence
  kept.insertionSort proposalBefore

/-- The window invariant the spec states for Scorer output, without the
maximum-duration bound: inside the video, nonempty, at least the minimum
duration long, confidence in the unit interval. -/
def GoodWindow (minD dur : ℚ) (p : Proposal) : Prop :=
  0 ≤ p.startTime ∧ p.startTime < p.endTime ∧ p.endTime ≤ dur ∧
    minD ≤ p.endTime - p.startTime ∧ 0 ≤ p.confidence ∧ p.confidence ≤ 1

/-- MIN_HIGHLIGHT_DURATION default from .env.example. -/
def MIN_HIGHLIGHT_DURATION : ℚ := 5

/-- MAX_HIGHLIGHT_DURATION default from .env.example. -/
def MAX_HIGHLIGHT_DURATION : ℚ := 120

/-- CONFIDENCE_THRESHOLD default from .env.example. -/
def CONFIDENCE_THRESHOLD : ℚ := 7 / 10

/-- The AI-settings slice of the Settings component's initial state
(the settings useState object): real-time processing, batch processing,
custom prompt weighting, and the highlight duration bounds. -/
structure AiSettings where
  enableRealTimeProcessing : Bool
  batchProcessingEnabled : Bool
  customPromptWeighting : ℚ
  highlightMinDuration : ℚ
  highlightMaxDuration : ℚ
  deriving DecidableEq, Repr

/-- Initial AI settings of the Settings component: note
`highlightMaxDuration: 60`, not 120. -/
def defaultAiSettings : AiSettings :=
  { enableRealTimeProcessing := true
    batchProcessingEnabled := true
    customPromptWeighting := 1
    highlightMinDuration := 5
    highlightMaxDuration := 60 }

/-- The unit array of formatFileSize (file-manager.tsx and the upload
component). -/
def sizes : List String := ["Bytes", "KB", "MB", "GB"]

/-- JavaScript Math.round: round half toward positive infinity. -/
def jsRound (q : ℚ) : ℤ := ⌊q + 1 / 2⌋

/-- The numeric text of formatFileSize: the byte count scaled by the chosen
power of 1024 and rounded to two decimals. -/
def formatValue (bytes : ℕ) : String :=
  toString ((jsRound ((bytes : ℚ) / 1024 ^ Nat.log 1024 bytes * 100) : ℚ) / 100)

/-- formatFileSize from file-manager.tsx and the upload component: 0 maps to
"0 Bytes"; otherwise the unit index is the floor of the base-1024 logarithm
of the byte count and indexes the four-element unit array (an out-of-range
index renders as undefined, as in JavaScript). -/
def formatFileSize (bytes : ℕ) : String :=
  if bytes = 0 then "0 Bytes"
  else formatValue bytes ++ " " ++ (sizes.getD (Nat.log 1024 bytes) "undefined")

/-- Prompt category union of the CustomPrompt interface in
components/custom-prompts.tsx. -/
inductive PromptCategory
  | GENERAL
  | GAMING
  | REACTIONS
  | EDUCATIONAL
  | ENTERTAINMENT
  deriving DecidableEq, Repr

/-- CustomPrompt interface of components/custom-prompts.tsx. -/
structure CustomPrompt where
  id : String
  name : String
  description : String
  prompt : String
  category : PromptCategory
  useCount : ℕ
  lastUsedAt : Option String
  createdAt : String
  isDefault : Bool
  tags : List String
  deriving DecidableEq, Repr

/-- deletePrompt from components/custom-prompts.tsx: look the prompt up by
id; if the found prompt is a default one, return the state unchanged (only a
toast fires); otherwise filter the id out of the list. -/
def deletePrompt (prompts : List CustomPrompt) (promptId : String) :
    List CustomPrompt :=
  match prompts.find? (fun p => p.id = promptId) with
  | some p =>
    if p.isDefault then prompts
    else prompts.filter fun q => q.id ≠ promptId
  | none => prompts.filter fun q => q.id ≠ promptId

/-- Concrete witness input: job 1 after pausing. -/
def pausedJob1 : ProcessingJob := { job1 with status := JobStatus.PAUSED }

/-- Concrete witness input: job 5 after the retry action. -/
def retriedJob5 : ProcessingJob :=
  { job5 with status := JobStatus.PENDING, progress := 0, error := none }

/-- Concrete witness input: an orchestrator task mid-transcription. -/
def sampleTask : ProcessingTask :=
  { id := "t1", type := TaskType.TRANSCRIPTION, status := TaskStatus.RUNNING
    progress := 75, customPrompt := none, error := none, startedAt := none
    completedAt := none, createdAt := "" }

/-- Concrete witness input: a pending transcription task. -/
def taskA : ProcessingTask :=
  { id := "a", type := TaskType.TRANSCRIPTION, status := TaskStatus.PENDING
    progress := 0, customPrompt := none, error := none, startedAt := none
    completedAt := none, createdAt := "" }

/-- Concrete witness input: a second pending task. -/
def taskB : ProcessingTask :=
  { id := "b", type := TaskType.HIGHLIGHT_DETECTION, status := TaskStatus.PENDING
    progress := 0, customPrompt := none, error := none, startedAt := none
    completedAt := none, createdAt := "" }

/-- Concrete witness input: a default custom prompt. -/
def promptA : CustomPrompt :=
  { id := "1", name := "Epic Gaming Moments", description := "", prompt := "p"
    category := PromptCategory.GAMING, useCount := 45, lastUsedAt := none
    createdAt := "", isDefault := true, tags := ["gaming"] }

/-- Concrete witness input: a user-created custom prompt. -/
def promptB : CustomPrompt :=
  { id := "3", name := "Educational Highlights", description := "", prompt := "q"
    category := PromptCategory.EDUCATIONAL, useCount := 18, lastUsedAt := none
    createdAt := "", isDefault := false, tags := ["tutorial"] }

/-- Concrete witness input: a highlight row. -/
def sampleHighlight : Highlight :=
  { id := "h1", videoId := "v1", startTime := 10, endTime := 40
    confidence := 9 / 10, type := HighlightType.EMOTIONAL_REACTION
    description := none }

/-- Concrete witness input: a clip derived from sampleHighlight. -/
def clipX : Clip :=
  { id := "c1", videoId := "v1", highlightId := some "h1"
    filename := "clip1.mp4", filePath := "/clips/clip1.mp4", fileSize := 45000000
    duration := 30, startTime := 10, endTime := 40
    format := ClipFormat.HORIZONTAL, hasSubtitles := false, hasOverlay := false }

/-- Concrete witness input: a clip with no highlight reference. -/
def clipY : Clip :=
  { id := "c2", videoId := "v1", highlightId := none
    filename := "clip2.mp4", filePath := "/clips/clip2.mp4", fileSize := 25000000
    duration := 12, startTime := 100, endTime := 112
    format := ClipFormat.VERTICAL, hasSubtitles := true, hasOverlay := false }

/-- Concrete witness input: one well-formed scorer proposal. -/
def proposalW : Proposal :=
  { startTime := 10, endTime := 40, peak := 25, confidence := 1
    category := HighlightType.EMOTIONAL_REACTION }

/-- Concrete input: an audio-energy window over seconds 0-120 of a video. -/
def cexP1 : Proposal :=
  { startTime := 0, endTime := 120, peak := 60, confidence := 9 / 10
    category := HighlightType.EMOTIONAL_REACTION }

/-- Concrete input: a chat-spike window over seconds 60-180, overlapping
cexP1 with intersection-over-union one third. -/
def cexP2 : Proposal :=
  { startTime := 60, endTime := 180, peak := 120, confidence := 8 / 10
    category := HighlightType.CHAT_SPIKE }

/-- C1: the persisted ProcessingTask status set is exactly PENDING, RUNNING,
COMPLETED, FAILED, CANCELLED, but the processing-queue UI additionally uses a
PAUSED status: pauseJob moves the addressed job to PAUSED (a status outside
the persisted set) and leaves every other job unchanged, so queue operations
stay within the five-element UI status set rather than within the claimed
persisted set. -/
theorem c1_ui_status_set :
    (∀ s : TaskStatus,
        s.str ∈ ["PENDING", "RUNNING", "COMPLETED", "FAILED", "CANCELLED"]) ∧
    (∀ (jobs : List ProcessingJob) (jobId : String) (j : ProcessingJob),
        j ∈ pauseJob jobs jobId →
          j.status.str ∈ ["PENDING", "RUNNING", "COMPLETED", "FAILED", "PAUSED"] ∧
          (j.id = jobId → j.status = JobStatus.PAUSED) ∧
          (j.id ≠ jobId → j ∈ jobs)) := by
  constructor
  · intro s
    cases s <;> simp [TaskStatus.str]
  · intro jobs jobId j hj
    rcases List.mem_map.mp hj with ⟨j0, hj0, hje⟩
    by_cases h : j0.id = jobId
    · rw [if_pos h] at hje
      subst hje
      exact ⟨by simp [JobStatus.str], fun _ => rfl, fun hne => absurd h hne⟩
    · rw [if_neg h] at hje
      subst hje
      exact ⟨by cases j0.status <;> simp [JobStatus.str],
        fun he => absurd he h, fun _ => hj0⟩

/-- C1 witness: pausing job 1 of the component's initial queue. -/
theorem c1_ui_status_set_witness :
    pausedJob1 ∈ pauseJob initialJobs "1" ∧
    (pausedJob1.status.str ∈ ["PENDING", "RUNNING", "COMPLETED", "FAILED", "PAUSED"] ∧
      (pausedJob1.id = "1" → pausedJob1.status = JobStatus.PAUSED) ∧
      (pausedJob1.id ≠ "1" → pausedJob1 ∈ initialJobs)) :=
  ⟨by decide, c1_ui_status_set.2 initialJobs "1" pausedJob1 (by decide)⟩

/-- C1 counterexample: pausing the running job 1 puts it into the PAUSED
status, which is outside the claimed status set. -/
theorem c1_paused_outside_claimed_set :
    ∃ j ∈ pauseJob initialJobs "1",
      j.status.str ∉ ["PENDING", "RUNNING", "COMPLETED", "FAILED", "CANCELLED"] := by
  decide

/-- C4: the processing-queue cancel button is offered exactly for PENDING,
PAUSED and FAILED jobs (not for RUNNING ones), and cancelJob removes the
addressed job from the job list instead of recording a cancelled status: a
job is in the result exactly when it was in the input and its id differs. -/
theorem c4_cancel_guard_and_removal :
    (∀ s : JobStatus,
        canCancel s = true ↔
          (s = JobStatus.PENDING ∨ s = JobStatus.PAUSED ∨ s = JobStatus.FAILED)) ∧
    (∀ (jobs : List ProcessingJob) (jobId : String) (j : ProcessingJob),
        j ∈ cancelJob jobs jobId ↔ (j ∈ jobs ∧ j.id ≠ jobId)) := by
  constructor
  · intro s
    cases s <;> simp [canCancel]
  · intro jobs jobId j
    simp [cancelJob, List.mem_filter]

/-- C4 counterexample: job 5 of the initial queue is FAILED — neither
pending nor running — yet the UI offers cancel for it and cancelJob changes
the task set; and cancelling the pending job 3 erases it rather than keeping
it with a cancelled status. -/
theorem c4_cancel_failed_changes_set :
    canCancel job5.status = true ∧ job5.status.str ≠ "PENDING" ∧
      job5.status.str ≠ "RUNNING" ∧ job5 ∈ initialJobs ∧
      cancelJob initialJobs "5" ≠ initialJobs ∧
      (∀ j ∈ cancelJob initialJobs "3", j.id ≠ "3") := by
  decide

/-- C5: retryJob is an unconditional manual retry — it returns the addressed
job to PENDING with progress 0 and the error cleared, for any job record and
any number of times, with no transient tag and no attempt counter; the UI
offers the retry button exactly for FAILED jobs. -/
theorem c5_retry_unconditional :
    (∀ s : JobStatus, canRetry s = true ↔ s = JobStatus.FAILED) ∧
    (∀ (jobs : List ProcessingJob) (jobId : String) (j : ProcessingJob),
        j ∈ retryJob jobs jobId →
          (j.id = jobId →
            j.status = JobStatus.PENDING ∧ j.progress = 0 ∧ j.error = none) ∧
          (j.id ≠ jobId → j ∈ jobs)) := by
  constructor
  · intro s
    cases s <;> simp [canRetry]
  · intro jobs jobId j hj
    rcases List.mem_map.mp hj with ⟨j0, hj0, hje⟩
    by_cases h : j0.id = jobId
    · rw [if_pos h] at hje
      exact ⟨fun _ => by rw [← hje]; exact ⟨rfl, rfl, rfl⟩,
        fun hne => absurd (by rw [← hje]; exact h) hne⟩
    · rw [if_neg h] at hje
      subst hje
      exact ⟨fun he => absurd he h, fun _ => hj0⟩

/-- C5 witness: retrying the failed job 5 of the component's initial queue. -/
theorem c5_retry_unconditional_witness :
    retriedJob5 ∈ retryJob initialJobs "5" ∧
    ((retriedJob5.id = "5" →
        retriedJob5.status = JobStatus.PENDING ∧ retriedJob5.progress = 0 ∧
          retriedJob5.error = none) ∧
      (retriedJob5.id ≠ "5" → retriedJob5 ∈ initialJobs)) :=
  ⟨by decide, c5_retry_unconditional.2 initialJobs "5" retriedJob5 (by decide)⟩

/-- C5 counterexample: job 5 failed with an untagged error (the job record
has no transient tag at all), yet retryJob returns it to PENDING — the code
neither restricts retries to transient-tagged failures nor counts attempts
against a bound of 3. -/
theorem c5_retry_untagged_failure :
    job5 ∈ initialJobs ∧ job5.status = JobStatus.FAILED ∧
      (∃ j ∈ retryJob initialJobs "5", j.id = "5" ∧ j.status = JobStatus.PENDING ∧
        j.error = none) := by
  decide

/-- One progress-step never decreases a job's progress when the drawn
increment is nonnegative. -/
theorem progressStep_mono (inc : ℚ) (job : ProcessingJob) (h : 0 ≤ inc) :
    job.progress ≤ (progressStep inc job).progress := by
  unfold progressStep
  by_cases hr : job.status = JobStatus.RUNNING ∧ job.progress < 100
  · rw [if_pos hr]
    show job.progress ≤ if job.progress + inc ≤ 100 then job.progress + inc else 100
    split_ifs with h2
    · linarith
    · linarith [hr.2]
  · rw [if_neg hr]

/-- C2: progress observable by readers never decreases: a ReportProgress
call with a lower percent than recorded leaves the task unchanged (ignored,
not an error) and never lowers the recorded progress, and the periodic
progress-update step of the queue UI never decreases any job's progress when
the random draws are nonnegative. -/
theorem c2_progress_monotone (t : ProcessingTask) (percent : ℚ) (inc : ℚ)
    (job : ProcessingJob) (rand : String → ℚ) (jobs : List ProcessingJob)
    (i : ℕ) (j j' : ProcessingJob) (hinc : 0 ≤ inc) (hrand : 0 ≤ rand j.id)
    (hget : jobs[i]? = some j)
    (hget' : (progressTick rand jobs)[i]? = some j') :
    (percent < t.progress → reportProgress t percent = t) ∧
    t.progress ≤ (reportProgress t percent).progress ∧
    job.progress ≤ (progressStep inc job).progress ∧
    j.progress ≤ j'.progress := by
  refine ⟨?_, ?_, progressStep_mono inc job hinc, ?_⟩
  · intro hlt
    unfold reportProgress
    rw [if_pos hlt]
  · unfold reportProgress
    split_ifs with hlt
    · exact le_refl _
    · show t.progress ≤ percent
      linarith
  · unfold progressTick at hget'
    rw [List.getElem?_map, hget] at hget'
    have hj' := Option.some.inj hget'
    rw [← hj']
    exact progressStep_mono _ j hrand

/-- C2 witness: a lower report on a running task and the first tick of the
component's initial queue with increment 1. -/
theorem c2_progress_monotone_witness :
    (0 : ℚ) ≤ 1 ∧ initialJobs[0]? = some job1 ∧
      (progressTick (fun _ => 1) initialJobs)[0]? = some (progressStep 1 job1) ∧
      (((50 : ℚ) < sampleTask.progress → reportProgress sampleTask 50 = sampleTask) ∧
        sampleTask.progress ≤ (reportProgress sampleTask 50).progress ∧
        job1.progress ≤ (progressStep 1 job1).progress ∧
        job1.progress ≤ (progressStep 1 job1).progress) :=
  ⟨by norm_num, rfl, rfl,
    c2_progress_monotone sampleTask 50 1 job1 (fun _ => 1) initialJobs 0 job1
      (progressStep 1 job1) (by norm_num) (by norm_num) rfl rfl⟩

/-- C6: deleting a highlight removes only that highlight row, and by the
schema's `onDelete: SetNull` referential action every clip row survives:
the clip list keeps its length and each clip keeps every field unchanged
except that a reference to the deleted highlight becomes null. -/
theorem c6_clip_survives_highlight_deletion (hs : List Highlight)
    (cs : List Clip) (hid : String) (c : Clip) (hc : c ∈ cs) :
    (∀ h2 ∈ (deleteHighlight hid hs cs).1, h2.id ≠ hid) ∧
    (deleteHighlight hid hs cs).2.length = cs.length ∧
    ∃ c' ∈ (deleteHighlight hid hs cs).2,
      c'.id = c.id ∧ c'.videoId = c.videoId ∧ c'.filename = c.filename ∧
      c'.filePath = c.filePath ∧ c'.fileSize = c.fileSize ∧
      c'.duration = c.duration ∧ c'.startTime = c.startTime ∧
      c'.endTime = c.endTime ∧ c'.format = c.format ∧
      c'.hasSubtitles = c.hasSubtitles ∧ c'.hasOverlay = c.hasOverlay ∧
      c'.highlightId = (if c.highlightId = some hid then none else c.highlightId) := by
  refine ⟨?_, by simp [deleteHighlight], ?_⟩
  · intro h2 hh2
    simp only [deleteHighlight] at hh2
    have := (List.mem_filter.mp hh2).2
    simpa using this
  · refine ⟨clearHighlightRef hid c, ?_, ?_⟩
    · simp only [deleteHighlight]
      exact List.mem_map_of_mem _ hc
    · unfold clearHighlightRef
      by_cases h : c.highlightId = some hid
      · rw [if_pos h, if_pos h]
        exact ⟨rfl, rfl, rfl, rfl, rfl, rfl, rfl, rfl, rfl, rfl, rfl, rfl⟩
      · rw [if_neg h, if_neg h]
        exact ⟨rfl, rfl, rfl, rfl, rfl, rfl, rfl, rfl, rfl, rfl, rfl, rfl⟩

/-- C6 witness: deleting sampleHighlight with two concrete clips, one of
which references it. -/
theorem c6_clip_survives_witness :
    clipX ∈ [clipX, clipY] ∧
      ((∀ h2 ∈ (deleteHighlight "h1" [sampleHighlight] [clipX, clipY]).1, h2.id ≠ "h1") ∧
        (deleteHighlight "h1" [sampleHighlight] [clipX, clipY]).2.length = 2 ∧
        ∃ c' ∈ (deleteHighlight "h1" [sampleHighlight] [clipX, clipY]).2,
          c'.id = clipX.id ∧ c'.videoId = clipX.videoId ∧ c'.filename = clipX.filename ∧
          c'.filePath = clipX.filePath ∧ c'.fileSize = clipX.fileSize ∧
          c'.duration = clipX.duration ∧ c'.startTime = clipX.startTime ∧
          c'.endTime = clipX.endTime ∧ c'.format = clipX.format ∧
          c'.hasSubtitles = clipX.hasSubtitles ∧ c'.hasOverlay = clipX.hasOverlay ∧
          c'.highlightId =
            (if clipX.highlightId = some "h1" then none else clipX.highlightId)) :=
  ⟨by decide,
    c6_clip_survives_highlight_deletion [sampleHighlight] [clipX, clipY] "h1" clipX
      (by decide)⟩

/-- C9: formatFileSize maps 0 to "0 Bytes", and for any byte count from 1 up
to but excluding 1024^4 the computed unit index — the floor base-1024
logarithm of the count — stays within the four-element unit array, so the
output is the rounded number followed by one of Bytes, KB, MB, GB. -/
theorem c9_formatFileSize_unit_in_range (b : ℕ) (h1 : 1 ≤ b)
    (h2 : b < 1024 ^ 4) :
    formatFileSize 0 = "0 Bytes" ∧ Nat.log 1024 b < sizes.length ∧
    ∃ u ∈ sizes, formatFileSize b = formatValue b ++ " " ++ u := by
  have hb0 : b ≠ 0 := by omega
  have hlt : Nat.log 1024 b < 4 := Nat.log_lt_of_lt_pow hb0 h2
  refine ⟨rfl, by simpa [sizes] using hlt, ?_⟩
  refine ⟨sizes.getD (Nat.log 1024 b) "undefined", ?_, ?_⟩
  · generalize hl : Nat.log 1024 b = l at hlt
    interval_cases l <;> simp [sizes]
  · simp [formatFileSize, hb0]

/-- C9 witness: 2048 bytes, one step into the KB range. -/
theorem c9_formatFileSize_witness :
    1 ≤ 2048 ∧ 2048 < 1024 ^ 4 ∧
      (formatFileSize 0 = "0 Bytes" ∧ Nat.log 1024 2048 < sizes.length ∧
        ∃ u ∈ sizes, formatFileSize 2048 = formatValue 2048 ++ " " ++ u) :=
  ⟨by norm_num, by norm_num,
    c9_formatFileSize_unit_in_range 2048 (by norm_num) (by norm_num)⟩

/-- With no duplicate ids, the find-by-id of deletePrompt locates exactly
the given member. -/
theorem find_by_id_eq (prompts : List CustomPrompt) (p : CustomPrompt)
    (hnd : (prompts.map fun q => q.id).Nodup) (hp : p ∈ prompts) :
    prompts.find? (fun q => q.id = p.id) = some p := by
  induction prompts with
  | nil => cases hp
  | cons a as ih =>
    have hnd2 : a.id ∉ as.map (fun q => q.id) ∧ (as.map fun q => q.id).Nodup := by
      rw [List.map_cons, List.nodup_cons] at hnd
      exact hnd
    rcases List.mem_cons.mp hp with rfl | hmem
    · rw [List.find?_cons_of_pos]
      simp
    · by_cases ha : a.id = p.id
      · exfalso
        exact hnd2.1 (ha ▸ List.mem_map_of_mem _ hmem)
      · rw [List.find?_cons_of_neg]
        · exact ih hnd2.2 hmem
        · simpa using ha

/-- C10: with unique prompt ids, deletePrompt removes exactly the addressed
prompt when it exists and is not a default prompt — the prompt is gone,
everything in the result comes from the input with a different id, and every
other prompt is kept — and when the addressed prompt is a default one the
prompt list is returned completely unchanged. -/
theorem c10_deletePrompt_exact (prompts : List CustomPrompt) (pid : String)
    (p : CustomPrompt) (hnd : (prompts.map fun q => q.id).Nodup)
    (hp : p ∈ prompts) (hid : p.id = pid) :
    (p.isDefault = true → deletePrompt prompts pid = prompts) ∧
    (p.isDefault = false →
      p ∉ deletePrompt prompts pid ∧
      (∀ q ∈ deletePrompt prompts pid, q ∈ prompts ∧ q.id ≠ pid) ∧
      (∀ q ∈ prompts, q.id ≠ pid → q ∈ deletePrompt prompts pid)) := by
  subst hid
  have hfind : prompts.find? (fun q => q.id = p.id) = some p :=
    find_by_id_eq prompts p hnd hp
  simp only [deletePrompt, hfind]
  constructor
  · intro hdef
    rw [if_pos hdef]
  · intro hdef
    rw [if_neg (by simp [hdef])]
    refine ⟨?_, ?_, ?_⟩
    · intro hmem
      have := (List.mem_filter.mp hmem).2
      simp at this
    · intro q hq
      have h3 := List.mem_filter.mp hq
      exact ⟨h3.1, by simpa using h3.2⟩
    · intro q hq hne
      exact List.mem_filter.mpr ⟨hq, by simpa using hne⟩

/-- Shape of a successful claim: the task list splits at the first pending
task, which is returned and set running in place. -/
theorem claimNext_eq_some (ts : List ProcessingTask) (id : String)
    (ts' : List ProcessingTask) (h : claimNext ts = some (id, ts')) :
    ∃ pre t post, ts = pre ++ t :: post ∧ t.status = TaskStatus.PENDING ∧
      t.id = id ∧ ts' = pre ++ { t with status := TaskStatus.RUNNING } :: post := by
  induction ts generalizing ts' with
  | nil => simp [claimNext] at h
  | cons a as ih =>
    rw [claimNext] at h
    by_cases ha : a.status = TaskStatus.PENDING
    · rw [if_pos ha] at h
      have h2 := Option.some.inj h
      have hid : a.id = id := congrArg Prod.fst h2
      have hts : ({ a with status := TaskStatus.RUNNING } :: as) = ts' :=
        congrArg Prod.snd h2
      exact ⟨[], a, as, rfl, ha, hid, hts.symm⟩
    · rw [if_neg ha] at h
      cases hca : claimNext as with
      | none =>
        rw [hca] at h
        simp at h
      | some v =>
        obtain ⟨i2, ts2⟩ := v
        rw [hca, Option.map_some'] at h
        have h2 := Option.some.inj h
        have hid : i2 = id := congrArg Prod.fst h2
        have hts : (a :: ts2) = ts' := congrArg Prod.snd h2
        subst hid
        obtain ⟨pre, t, post, he1, he2, he3, he4⟩ := ih ts2 hca
        refine ⟨a :: pre, t, post, ?_, he2, he3, ?_⟩
        · rw [he1]
          rfl
        · rw [← hts, he4]
          rfl

/-- C3: the atomic ClaimNext never hands the same task id to a second
claimant while the first claim is still running: with unique task ids, two
successive claims return different ids. -/
theorem c3_claim_mutual_exclusion (ts ts' ts'' : List ProcessingTask)
    (id id2 : String) (hnd : (ts.map fun t => t.id).Nodup)
    (h1 : claimNext ts = some (id, ts'))
    (h2 : claimNext ts' = some (id2, ts'')) : id2 ≠ id := by
  obtain ⟨pre, t, post, he1, he2, he3, he4⟩ := claimNext_eq_some ts id ts' h1
  obtain ⟨pre2, t2, post2, hf1, hf2, hf3, hf4⟩ := claimNext_eq_some ts' id2 ts'' h2
  have hids : ts'.map (fun t => t.id) = ts.map (fun t => t.id) := by
    rw [he1, he4]
    simp
  have hnd' : (ts'.map fun t => t.id).Nodup := by
    rw [hids]
    exact hnd
  intro he
  have hrmem : ({ t with status := TaskStatus.RUNNING } : ProcessingTask) ∈ ts' := by
    rw [he4]
    exact List.mem_append_right _ (List.mem_cons_self _ _)
  have ht2mem : t2 ∈ ts' := by
    rw [hf1]
    exact List.mem_append_right _ (List.mem_cons_self _ _)
  have heq : t2 = { t with status := TaskStatus.RUNNING } := by
    refine List.inj_on_of_nodup_map hnd' ht2mem hrmem ?_
    show t2.id = t.id
    rw [hf3, he]
    exact he3.symm
  rw [heq] at hf2
  simp at hf2

/-- C3 witness: claiming twice from a concrete two-task queue returns the
two distinct task ids. -/
theorem c3_claim_mutual_exclusion_witness :
    ([taskA, taskB].map fun t => t.id).Nodup ∧
      claimNext [taskA, taskB] =
        some ("a", [{ taskA with status := TaskStatus.RUNNING }, taskB]) ∧
      claimNext [{ taskA with status := TaskStatus.RUNNING }, taskB] =
        some ("b", [{ taskA with status := TaskStatus.RUNNING },
          { taskB with status := TaskStatus.RUNNING }]) ∧
      ("b" : String) ≠ "a" :=
  ⟨by decide, by decide, by decide,
    c3_claim_mutual_exclusion [taskA, taskB]
      [{ taskA with status := TaskStatus.RUNNING }, taskB]
      [{ taskA with status := TaskStatus.RUNNING },
        { taskB with status := TaskStatus.RUNNING }]
      "a" "b" (by decide) (by decide) (by decide)⟩

/-- The edge-shift stage of clampProposal keeps a window of adequate length
inside the video. -/
theorem shift_stage_good (minD dur : ℚ) (q : Proposal) (h0 : 0 < minD)
    (hmin : minD ≤ q.endTime - q.startTime)
    (hmax : q.endTime - q.startTime ≤ dur)
    (hc1 : 0 ≤ q.confidence) (hc2 : q.confidence ≤ 1) :
    GoodWindow minD dur
      (if q.startTime < 0 then
        { q with startTime := 0, endTime := q.endTime - q.startTime }
      else if dur < q.endTime then
        { q with startTime := dur - (q.endTime - q.startTime), endTime := dur }
      else q) := by
  unfold GoodWindow
  split_ifs with hs he <;> (try dsimp only) <;>
    refine ⟨by linarith, by linarith, by linarith, by linarith, hc1, hc2⟩

/-- The clamp stage establishes the window invariant for any proposal with a
unit-interval confidence. -/
theorem clampProposal_good (minD maxD dur : ℚ) (p : Proposal) (h0 : 0 < minD)
    (h1 : minD ≤ maxD) (h2 : maxD ≤ dur)
    (hc : 0 ≤ p.confidence ∧ p.confidence ≤ 1) :
    GoodWindow minD dur (clampProposal minD maxD dur p) := by
  unfold clampProposal
  dsimp only
  by_cases hA : p.endTime - p.startTime < minD
  · rw [if_pos hA]
    refine shift_stage_good minD dur _ h0 ?_ ?_ hc.1 hc.2
    · show minD ≤ p.peak + minD / 2 - (p.peak - minD / 2)
      linarith
    · show p.peak + minD / 2 - (p.peak - minD / 2) ≤ dur
      linarith
  · rw [if_neg hA]
    have hA2 : minD ≤ p.endTime - p.startTime := not_lt.mp hA
    by_cases hB : maxD < p.endTime - p.startTime
    · rw [if_pos hB]
      refine shift_stage_good minD dur _ h0 ?_ ?_ hc.1 hc.2
      · show minD ≤ p.peak + maxD / 2 - (p.peak - maxD / 2)
        linarith
      · show p.peak + maxD / 2 - (p.peak - maxD / 2) ≤ dur
        linarith
    · rw [if_neg hB]
      have hB2 : p.endTime - p.startTime ≤ maxD := not_lt.mp hB
      exact shift_stage_good minD dur p h0 hA2 (by linarith) hc.1 hc.2

/-- Merging two good windows yields a good window: the union of the bounds
still lies in the video, is at least as long as either constituent, and the
maximum confidence stays in the unit interval. -/
theorem mergeTwo_good (minD dur : ℚ) (a b : Proposal)
    (ha : GoodWindow minD dur a) (hb : GoodWindow minD dur b) :
    GoodWindow minD dur (mergeTwo a b) := by
  obtain ⟨ha1, ha2, ha3, ha4, ha5, ha6⟩ := ha
  obtain ⟨hb1, hb2, hb3, hb4, hb5, hb6⟩ := hb
  unfold mergeTwo GoodWindow
  dsimp only
  refine ⟨?_, ?_, ?_, ?_, ?_, ?_⟩ <;> split_ifs <;> linarith

/-- insertMerge preserves the window invariant. -/
theorem insertMerge_good (minD dur thr : ℚ) (p : Proposal)
    (acc : List Proposal) (hp : GoodWindow minD dur p)
    (hacc : ∀ q ∈ acc, GoodWindow minD dur q) :
    ∀ q ∈ insertMerge thr p acc, GoodWindow minD dur q := by
  induction acc with
  | nil =>
    intro q hq
    rw [insertMerge] at hq
    rcases List.mem_singleton.mp hq with rfl
    exact hp
  | cons a as ih =>
    intro q hq
    rw [insertMerge] at hq
    by_cases h : thr ≤ overlapScore p a
    · rw [if_pos h] at hq
      rcases List.mem_cons.mp hq with rfl | hq2
      · exact mergeTwo_good minD dur a p (hacc a (List.mem_cons_self _ _)) hp
      · exact hacc q (List.mem_cons_of_mem _ hq2)
    · rw [if_neg h] at hq
      rcases List.mem_cons.mp hq with rfl | hq2
      · exact hacc q (List.mem_cons_self _ _)
      · exact ih (fun r hr => hacc r (List.mem_cons_of_mem _ hr)) q hq2

/-- The merge fold preserves the window invariant. -/
theorem foldl_insertMerge_good (minD dur thr : ℚ) :
    ∀ ps acc : List Proposal, (∀ p ∈ ps, GoodWindow minD dur p) →
      (∀ q ∈ acc, GoodWindow minD dur q) →
      ∀ q ∈ ps.foldl (fun acc p => insertMerge thr p acc) acc,
        GoodWindow minD dur q := by
  intro ps
  induction ps with
  | nil =>
    intro acc _ hacc q hq
    exact hacc q hq
  | cons p ps ih =>
    intro acc hps hacc q hq
    rw [List.foldl_cons] at hq
    exact ih (insertMerge thr p acc)
      (fun r hr => hps r (List.mem_cons_of_mem _ hr))
      (insertMerge_good minD dur thr p acc (hps p (List.mem_cons_self _ _)) hacc)
      q hq

/-- The merge pass preserves the window invariant. -/
theorem mergePass_good (minD dur thr : ℚ) (ps : List Proposal)
    (hps : ∀ p ∈ ps, GoodWindow minD dur p) :
    ∀ q ∈ mergePass thr ps, GoodWindow minD dur q := by
  intro q hq
  exact foldl_insertMerge_good minD dur thr ps [] hps (by simp) q hq

/-- C7 (amended): every highlight emitted by the Scorer lies inside the
video, is nonempty, lasts at least minHighlightDuration, has confidence in
the unit interval (given unit-interval input scores) and clears the
confidence threshold; the maxHighlightDuration upper bound, however, is not
preserved by the merge step. -/
theorem c7_scorer_window_invariant (minD maxD dur thr mergeThr : ℚ)
    (ps : List Proposal) (h0 : 0 < minD) (h1 : minD ≤ maxD) (h2 : maxD ≤ dur)
    (hconf : ∀ p ∈ ps, 0 ≤ p.confidence ∧ p.confidence ≤ 1) :
    ∀ h ∈ scoreHighlights minD maxD dur thr mergeThr ps,
      GoodWindow minD dur h ∧ thr ≤ h.confidence := by
  intro h hh
  unfold scoreHighlights at hh
  rw [List.mem_insertionSort] at hh
  have hh2 := List.mem_filter.mp hh
  refine ⟨?_, by simpa using hh2.2⟩
  refine mergePass_good minD dur mergeThr _ ?_ h hh2.1
  intro p hp
  rcases List.mem_map.mp hp with ⟨p0, hp0, rfl⟩
  exact clampProposal_good minD maxD dur p0 h0 h1 h2 (hconf p0 hp0)

/-- C7 witness: the default bounds and threshold on a single well-formed
proposal. -/
theorem c7_scorer_window_invariant_witness :
    (0 : ℚ) < 5 ∧ (5 : ℚ) ≤ 120 ∧ (120 : ℚ) ≤ 3600 ∧
      (∀ p ∈ [proposalW], 0 ≤ p.confidence ∧ p.confidence ≤ 1) ∧
      ∀ h ∈ scoreHighlights 5 120 3600 CONFIDENCE_THRESHOLD (3 / 10) [proposalW],
        GoodWindow 5 3600 h ∧ CONFIDENCE_THRESHOLD ≤ h.confidence :=
  ⟨by norm_num, by norm_num, by norm_num, by decide,
    c7_scorer_window_invariant 5 120 3600 CONFIDENCE_THRESHOLD (3 / 10)
      [proposalW] (by norm_num) (by norm_num) (by norm_num) (by decide)⟩

/-- C7 counterexample: two clamped proposals of the maximal 120-second
duration overlap with intersection-over-union one third, so the merge step
unions them into a single 180-second highlight, longer than
maxHighlightDuration. -/
theorem c7_merged_window_exceeds_max :
    ∃ h ∈ scoreHighlights 5 120 3600 (7 / 10) (3 / 10) [cexP1, cexP2],
      (120 : ℚ) < h.endTime - h.startTime := by
  refine ⟨{ startTime := 0, endTime := 180, peak := 60, confidence := 9 / 10
            category := HighlightType.EMOTIONAL_REACTION }, ?_, by norm_num⟩
  norm_num [scoreHighlights, mergePass, insertMerge, overlapScore, mergeTwo,
    clampProposal, cexP1, cexP2, List.insertionSort, List.orderedInsert,
    proposalBefore]

/-- C8 (amended): the clamp stage keeps every proposal's duration within
[minHighlightDuration, maxHighlightDuration]; the environment defaults are
5 and 120 seconds, while the Settings component's initial state uses 5 and
60 seconds. -/
theorem c8_clamp_length_and_defaults (minD maxD dur : ℚ) (p : Proposal)
    (h1 : minD ≤ maxD) :
    (minD ≤ (clampProposal minD maxD dur p).endTime -
        (clampProposal minD maxD dur p).startTime ∧
      (clampProposal minD maxD dur p).endTime -
        (clampProposal minD maxD dur p).startTime ≤ maxD) ∧
    MIN_HIGHLIGHT_DURATION = 5 ∧ MAX_HIGHLIGHT_DURATION = 120 ∧
    defaultAiSettings.highlightMinDuration = 5 ∧
    defaultAiSettings.highlightMaxDuration = 60 := by
  refine ⟨?_, rfl, rfl, rfl, rfl⟩
  unfold clampProposal
  dsimp only
  by_cases hA : p.endTime - p.startTime < minD
  · rw [if_pos hA]
    split_ifs <;> (try dsimp only) <;> constructor <;> linarith
  · rw [if_neg hA]
    rw [not_lt] at hA
    by_cases hB : maxD < p.endTime - p.startTime
    · rw [if_pos hB]
      split_ifs <;> (try dsimp only) <;> constructor <;> linarith
    · rw [if_neg hB]
      rw [not_lt] at hB
      split_ifs <;> (try dsimp only) <;> constructor <;> linarith

/-- C8 witness: the environment default bounds on a concrete proposal. -/
theorem c8_clamp_length_and_defaults_witness :
    (5 : ℚ) ≤ 120 ∧
      ((5 ≤ (clampProposal 5 120 3600 proposalW).endTime -
          (clampProposal 5 120 3600 proposalW).startTime ∧
        (clampProposal 5 120 3600 proposalW).endTime -
          (clampProposal 5 120 3600 proposalW).startTime ≤ 120) ∧
        MIN_HIGHLIGHT_DURATION = 5 ∧ MAX_HIGHLIGHT_DURATION = 120 ∧
        defaultAiSettings.highlightMinDuration = 5 ∧
        defaultAiSettings.highlightMaxDuration = 60) :=
  ⟨by norm_num, c8_clamp_length_and_defaults 5 120 3600 proposalW (by norm_num)⟩

/-- C8 counterexample: the Settings component's initial state defaults the
maximum highlight duration to 60 seconds, not the claimed 120, while its
minimum matches the environment default of 5. -/
theorem c8_settings_default_max_is_60 :
    defaultAiSettings.highlightMaxDuration ≠ MAX_HIGHLIGHT_DURATION ∧
      defaultAiSettings.highlightMaxDuration = 60 ∧
      defaultAiSettings.highlightMinDuration = MIN_HIGHLIGHT_DURATION := by
  refine ⟨by decide, rfl, rfl⟩

/-- C10 witness: deleting the non-default prompt among a default and a
non-default one. -/
theorem c10_deletePrompt_witness :
    ([promptA, promptB].map fun q => q.id).Nodup ∧ promptB ∈ [promptA, promptB] ∧
      promptB.id = "3" ∧
      ((promptB.isDefault = true →
          deletePrompt [promptA, promptB] "3" = [promptA, promptB]) ∧
        (promptB.isDefault = false →
          promptB ∉ deletePrompt [promptA, promptB] "3" ∧
          (∀ q ∈ deletePrompt [promptA, promptB] "3",
            q ∈ [promptA, promptB] ∧ q.id ≠ "3") ∧
          (∀ q ∈ [promptA, promptB], q.id ≠ "3" →
            q ∈ deletePrompt [promptA, promptB] "3"))) :=
  ⟨by decide, by decide, rfl,
    c10_deletePrompt_exact [promptA, promptB] "3" promptB (by decide) (by decide) rfl⟩

end ClipMaster
